import Mathlib

/-!
Shallow embedding of `agent/python/audit_agent.py`: the Metrics Normalizer,
Risk Classifier, Report Composer (the `analyze` function) and the per-site
Run Orchestrator (the `main` loop).  JSON values are modelled by `JVal`
(numbers as integers: all audited metrics are counts), Python dictionaries
by association lists, raised exceptions by `Except`, and the external
PowerShell collaborators (grant and audit) by an `Oracle` of their observable
outcomes.  Filesystem and console effects of the orchestrator are recorded
as an ordered event trace.
-/

namespace AuditAgent

/-- A parsed JSON value (`json.loads` result). -/
inductive JVal where
  | jnull : JVal
  | jbool : Bool → JVal
  | jnum : Int → JVal
  | jstr : String → JVal
  | jarr : List JVal → JVal
  | jobj : List (String × JVal) → JVal

/-- Python truthiness (`bool(v)`) for the JSON-derived values. -/
def pyTruthy : JVal → Bool
  | .jnull => false
  | .jbool b => b
  | .jnum n => n != 0
  | .jstr s => s != ""
  | .jarr xs => !xs.isEmpty
  | .jobj kvs => !kvs.isEmpty

/-- Python `str` of a boolean. -/
def pyBoolStr (b : Bool) : String := if b then "True" else "False"

mutual

/-- Python `str(v)` as it appears interpolated in an f-string. -/
def pyStr : JVal → String
  | .jnull => "None"
  | .jbool b => pyBoolStr b
  | .jnum n => toString n
  | .jstr s => s
  | .jarr xs => "[" ++ pyReprList xs ++ "]"
  | .jobj kvs => "\x7b" ++ pyReprObj kvs ++ "\x7d"

/-- Python `repr` of a value, used for elements inside containers. -/
def pyRepr : JVal → String
  | .jnull => "None"
  | .jbool b => pyBoolStr b
  | .jnum n => toString n
  | .jstr s => "\x27" ++ s ++ "\x27"
  | .jarr xs => "[" ++ pyReprList xs ++ "]"
  | .jobj kvs => "\x7b" ++ pyReprObj kvs ++ "\x7d"

/-- Comma-separated `repr`s of the elements of a list. -/
def pyReprList : List JVal → String
  | [] => ""
  | [x] => pyRepr x
  | x :: rest => pyRepr x ++ ", " ++ pyReprList rest

/-- Comma-separated `'key': repr(value)` pairs of a dict. -/
def pyReprObj : List (String × JVal) → String
  | [] => ""
  | [kv] => "\x27" ++ kv.1 ++ "\x27: " ++ pyRepr kv.2
  | kv :: rest => "\x27" ++ kv.1 ++ "\x27: " ++ pyRepr kv.2 ++ ", " ++ pyReprObj rest

end

/-- The exceptions the `analyze` step can raise before composing its report:
`json.loads` on malformed text (or an unreadable artifact), `.get` on a
non-dict (`AttributeError`), and an int comparison against a non-numeric
normalized value (`TypeError`). -/
inductive AErr where
  | jsonDecodeError : AErr
  | attributeError : AErr
  | typeError : AErr
deriving DecidableEq

/-- `DEFAULT_THRESHOLDS["critical"]`. -/
structure CriticalT where
  anyone_or_everyone : Bool
  external_owner : Bool
deriving DecidableEq

/-- `DEFAULT_THRESHOLDS["high"]`. -/
structure HighT where
  direct_web_perms : Bool
  unique_items_gt : Int
deriving DecidableEq

/-- `DEFAULT_THRESHOLDS["medium"]`. -/
structure MediumT where
  external_item_identities_gte : Int
  group_without_owner : Bool
deriving DecidableEq

/-- The threshold configuration consumed by `analyze`. -/
structure Thresholds where
  critical : CriticalT
  high : HighT
  medium : MediumT
deriving DecidableEq

/-- The module-level `DEFAULT_THRESHOLDS` dict. -/
def DEFAULT_THRESHOLDS : Thresholds :=
  { critical := { anyone_or_everyone := true, external_owner := true }
    high := { direct_web_perms := true, unique_items_gt := 250 }
    medium := { external_item_identities_gte := 10, group_without_owner := true } }

/-- A classified finding: a `(severity, message)` pair of strings, as in the
source's `findings` list. -/
abbrev Finding := String × String

/-- Message of rule 1 (Critical, anyone/everyone). -/
def msgAnyone : String := "\x27Anyone/Everyone\x27 access detected at web/site scope."

/-- Message of rule 2 (Critical, external owner). -/
def msgExternalOwner : String := "Guest/external user with Owner role detected."

/-- Message of rule 3 (High, direct web assignments), around the rendered count. -/
def msgDirect (v : String) : String := "Direct user permissions at web scope: " ++ v

/-- Message of rule 4 (High, unique items), around the rendered count. -/
def msgUnique (v : String) : String := "Items with unique permissions: " ++ v

/-- Message of rule 5 (Medium, external identities), around the rendered count. -/
def msgExternal (v : String) : String := "External identities with item-level access: " ++ v

/-- Message of rule 6 (Medium, ownerless groups), around the rendered count. -/
def msgGroups (v : String) : String := "SharePoint groups without owners: " ++ v

/-- The `counts` dict built by `analyze`: the numeric entries keep whatever
JSON value survived `metrics.get(...) or 0` (Python does not coerce them),
the two boolean entries are genuine `bool(...)` results. -/
structure CountsD where
  unique_items : JVal
  external_identities : JVal
  direct_web_assignments : JVal
  groups_without_owner : JVal
  anyone_or_everyone : Bool
  external_owner : Bool

/-- `metrics.get(key) or 0`: a missing key gives `None`, and `x or 0`
keeps `x` when truthy, else yields the int `0`. -/
def normNum (v : Option JVal) : JVal :=
  match v with
  | none => .jnum 0
  | some x => if pyTruthy x then x else .jnum 0

/-- `bool(metrics.get(key))`. -/
def normBool (v : Option JVal) : Bool :=
  match v with
  | none => false
  | some x => pyTruthy x

/-- The `counts = { ... }` construction of `analyze` (the Metrics
Normalizer proper): total, defaults for each absent field. -/
def normalizeMetrics (m : List (String × JVal)) : CountsD :=
  { unique_items := normNum (List.lookup "itemsWithUniquePermissions" m)
    external_identities := normNum (List.lookup "externalUsers" m)
    direct_web_assignments := normNum (List.lookup "webDirectAssignments" m)
    groups_without_owner := normNum (List.lookup "orphanedGroups" m)
    anyone_or_everyone := normBool (List.lookup "anyoneOrEveryoneAtWeb" m)
    external_owner := normBool (List.lookup "externalOwnerPresent" m) }

/-- The six metric keys the Normalizer reads. -/
def metricKeys : List String :=
  ["itemsWithUniquePermissions", "externalUsers", "webDirectAssignments",
   "orphanedGroups", "anyoneOrEveryoneAtWeb", "externalOwnerPresent"]

/-- The all-defaults normalized record (every count `0`, every flag false). -/
def defaultCountsD : CountsD :=
  { unique_items := .jnum 0, external_identities := .jnum 0,
    direct_web_assignments := .jnum 0, groups_without_owner := .jnum 0,
    anyone_or_everyone := false, external_owner := false }

/-- Python `v > t` for a normalized value against an int threshold:
ints and bools compare numerically, anything else raises `TypeError`. -/
def pyGtInt (v : JVal) (t : Int) : Except AErr Bool :=
  match v with
  | .jnum n => .ok (n > t)
  | .jbool b => .ok ((if b then (1 : Int) else 0) > t)
  | _ => .error .typeError

/-- Python `v >= t` for a normalized value against an int threshold. -/
def pyGeInt (v : JVal) (t : Int) : Except AErr Bool :=
  match v with
  | .jnum n => .ok (n ≥ t)
  | .jbool b => .ok ((if b then (1 : Int) else 0) ≥ t)
  | _ => .error .typeError

/-- The six-rule `findings` block of `analyze`, over the dynamic `counts`
dict, in source order; the two int comparisons (rules 4 and 5) may raise. -/
def classifyD (t : Thresholds) (c : CountsD) : Except AErr (List Finding) := do
  let gtUnique ← pyGtInt c.unique_items t.high.unique_items_gt
  let geExternal ← pyGeInt c.external_identities t.medium.external_item_identities_gte
  pure <|
    (if t.critical.anyone_or_everyone && c.anyone_or_everyone then
      [("Critical", msgAnyone)] else []) ++
    (if t.critical.external_owner && c.external_owner then
      [("Critical", msgExternalOwner)] else []) ++
    (if t.high.direct_web_perms && pyTruthy c.direct_web_assignments then
      [("High", msgDirect (pyStr c.direct_web_assignments))] else []) ++
    (if gtUnique then [("High", msgUnique (pyStr c.unique_items))] else []) ++
    (if geExternal then [("Medium", msgExternal (pyStr c.external_identities))] else []) ++
    (if t.medium.group_without_owner && pyTruthy c.groups_without_owner then
      [("Medium", msgGroups (pyStr c.groups_without_owner))] else [])

/-- The spec's `NormalizedCounts` record (§3): six fixed fields.  The
numeric fields are integers (the data model constrains them to be ≥ 0;
the code itself passes negative source values through unchecked). -/
structure NormalizedCounts where
  unique_items : Int
  external_identities : Int
  direct_web_assignments : Int
  groups_without_owner : Int
  anyone_or_everyone : Bool
  external_owner : Bool
deriving DecidableEq

/-- The Risk Classifier restricted to well-typed counts: the same six rules
in the same order, with Python int truthiness `c ≠ 0` for the two
enable-gated count rules.  `classifyD_typed` below proves this is exactly
the source's rule block run on a numerically-typed `counts` dict. -/
def classify (t : Thresholds) (c : NormalizedCounts) : List Finding :=
  (if t.critical.anyone_or_everyone && c.anyone_or_everyone then
    [("Critical", msgAnyone)] else []) ++
  (if t.critical.external_owner && c.external_owner then
    [("Critical", msgExternalOwner)] else []) ++
  (if t.high.direct_web_perms && (c.direct_web_assignments != 0) then
    [("High", msgDirect (toString c.direct_web_assignments))] else []) ++
  (if c.unique_items > t.high.unique_items_gt then
    [("High", msgUnique (toString c.unique_items))] else []) ++
  (if c.external_identities ≥ t.medium.external_item_identities_gte then
    [("Medium", msgExternal (toString c.external_identities))] else []) ++
  (if t.medium.group_without_owner && (c.groups_without_owner != 0) then
    [("Medium", msgGroups (toString c.groups_without_owner))] else [])

/-- View a well-typed `NormalizedCounts` as the dynamic `counts` dict. -/
def toCountsD (c : NormalizedCounts) : CountsD :=
  { unique_items := .jnum c.unique_items
    external_identities := .jnum c.external_identities
    direct_web_assignments := .jnum c.direct_web_assignments
    groups_without_owner := .jnum c.groups_without_owner
    anyone_or_everyone := c.anyone_or_everyone
    external_owner := c.external_owner }

/-- The module-level `CSS` constant. -/
def CSS : String :=
  "body\x7bfont-family:system-ui,Segoe UI,Roboto,Helvetica,Arial,sans-serif;max-width:960px;margin:2rem auto;padding:0 1rem\x7d h1\x7bfont-size:1.8rem\x7d h2\x7bfont-size:1.3rem;margin-top:2rem\x7d code,pre\x7bbackground:#f6f8fa;border:1px solid #eaecef;border-radius:6px;padding:.2rem .4rem\x7d"

/-- The line printed when no rule fired. -/
def noRiskLine : String := "- No risks met the configured thresholds."

/-- The `lines` list of `analyze` (the Report Composer), with the
`datetime.now().isoformat(...)` value passed in as `tsS`. -/
def reportLines (tsS : String) (c : CountsD) (findings : List Finding) : List String :=
  let ui := pyStr c.unique_items
  let ei := pyStr c.external_identities
  let dw := pyStr c.direct_web_assignments
  let go := pyStr c.groups_without_owner
  let ae := pyBoolStr c.anyone_or_everyone
  let eo := pyBoolStr c.external_owner
  ["# SharePoint Audit — Findings & Recommendations", "",
   s!"_Generated: {tsS}_", "",
   "## Summary", "",
   s!"- Items with unique permissions: **{ui}**",
   s!"- External identities (item-level): **{ei}**",
   s!"- Direct web assignments: **{dw}**",
   s!"- Groups without owners: **{go}**",
   s!"- Anyone/Everyone at web/site: **{ae}**",
   s!"- External Owner present: **{eo}**", "",
   "## Risk Ratings", ""] ++
  (if findings.isEmpty then [noRiskLine]
   else findings.map (fun f => s!"- **{f.1}** — {f.2}")) ++
  ["", "## Recommendations (PnP Snippets)", "",
   "- Review anonymous sharing & site sharing settings.",
   "- Remove direct web permissions where unjustified.",
   "- Reduce item-level unique permissions where possible.",
   "- Ensure each SharePoint group has an owner.", "", "---",
   "_PII notice: contains user emails and access data. Handle per policy._"]

/-- The surrounding HTML document around the rendered body. -/
def htmlDoc (body : String) : String :=
  "<!doctype html><html><head><meta charset=\x27utf-8\x27><title>SharePoint Audit</title><style>" ++
    CSS ++ "</style></head><body>" ++ body ++ "</body></html>"

/-- The `except` fallback body: the markdown escaped verbatim in `<pre>`. -/
def fallbackBody (md : String) : String :=
  "<pre>" ++ ((md.replace "&" "&amp;").replace "<" "&lt;") ++ "</pre>"

/-- `data.get("metrics", {})` preceded by `json.loads`: `none` models an
unreadable or unparseable artifact (both raise), a non-object document or a
non-object `metrics` value raises `AttributeError` at the following `.get`. -/
def extractMetrics (doc : Option JVal) : Except AErr (List (String × JVal)) :=
  match doc with
  | none => .error .jsonDecodeError
  | some (.jobj kvs) =>
    match (List.lookup "metrics" kvs).getD (.jobj []) with
    | .jobj mkvs => .ok mkvs
    | _ => .error .attributeError
  | some _ => .error .attributeError

/-- The `analyze` function: artifact → (markdown, html).  `tsS` is the
report-generation timestamp, `render` the `markdown.markdown` call (`none`
models an import failure or a raised rendering exception, triggering the
escaped fallback).  The `internal_domains_supplied` flag is accepted, as in
the source, and never consulted. -/
def analyze (tsS : String) (render : String → Option String) (doc : Option JVal)
    (thresholds : Thresholds) (internal_domains_supplied : Bool) :
    Except AErr (String × String) :=
  match extractMetrics doc with
  | .error e => .error e
  | .ok mkvs =>
    let counts := normalizeMetrics mkvs
    match classifyD thresholds counts with
    | .error e => .error e
    | .ok findings =>
      let md := String.intercalate "\n" (reportLines tsS counts findings)
      let body := match render md with
        | some b => b
        | none => fallbackBody md
      .ok (md, htmlDoc body)

/-- Characters the sanitizer keeps: the regex class `[a-zA-Z0-9._-]`. -/
def goodChar (c : Char) : Bool :=
  c.isAlphanum || c == '.' || c == '_' || c == '-'

/-- Python `site.strip("/")`: drop leading and trailing slashes. -/
def pyStripSlashes (s : String) : String :=
  ⟨((s.data.dropWhile (· == '/')).reverse.dropWhile (· == '/')).reverse⟩

/-- `re.sub(r"[^a-zA-Z0-9._-]+", "_", ·)` over the character list: each
maximal run of out-of-class characters becomes a single underscore.  The
flag records whether the previous character was part of a bad run, so that
only the first character of a run emits the underscore. -/
def subBadAux : Bool → List Char → List Char
  | _, [] => []
  | prevBad, c :: cs =>
    if goodChar c then c :: subBadAux false cs
    else if prevBad then subBadAux true cs
    else '_' :: subBadAux true cs

/-- `safe = re.sub(r"[^a-zA-Z0-9._-]+", "_", site.strip("/"))`. -/
def sanitizeSite (site : String) : String :=
  ⟨subBadAux false (pyStripSlashes site).data⟩

/-- Directly from the sanitization claim's words, for comparison with
`sanitizeSite`: replace every single character outside `[A-Za-z0-9._-]`
with `_`, one underscore per out-of-class character, at its position. -/
def claimCharwiseSanitize (s : String) : String :=
  ⟨s.data.map (fun c => if goodChar c then c else '_')⟩

/-- No two adjacent characters are both outside the kept class. -/
def noAdjBad : List Char → Bool
  | [] => true
  | [_] => true
  | a :: b :: rest => (goodChar a || goodChar b) && noAdjBad (b :: rest)

/-- Observable effects of `main`, in program order: directory creation,
stdout prints, the two external capability invocations, file writes and
stderr prints. -/
inductive Ev where
  | mkdir : String → Ev
  | outLine : String → Ev
  | grantCall : String → Ev
  | auditCall : String → Ev
  | write : String → String → Ev
  | errLine : String → Ev
deriving DecidableEq

/-- Outcomes of the two external PowerShell collaborators for each site:
`grant` may raise, `audit` may raise or else leaves a JSON artifact whose
parse result is the returned value (`none` = unreadable/unparseable). -/
structure Oracle where
  grant : String → Except String Unit
  audit : String → List String → Except String (Option JVal)

/-- Rendering of a raised analyze-stage exception in the stderr message. -/
def AErr.message : AErr → String
  | .jsonDecodeError => "JSONDecodeError"
  | .attributeError => "AttributeError"
  | .typeError => "TypeError"

/-- `run_dir / f"site-{safe}"`. -/
def siteDir (runDir site : String) : String :=
  runDir ++ "/site-" ++ sanitizeSite site

/-- One iteration of the `for site in sites` loop: mkdir, then the three
stages, each guarded by `try/except` that prints to stderr and `continue`s. -/
def processSite (o : Oracle) (tsS : String) (render : String → Option String)
    (idoms : List String) (runDir site : String) : List Ev :=
  let sd := siteDir runDir site
  Ev.mkdir sd ::
  Ev.outLine s!"[grant] {site}" ::
  Ev.grantCall site ::
  match o.grant site with
  | .error e => [Ev.errLine s!"Grant failed for {site}: {e}"]
  | .ok _ =>
    Ev.outLine s!"[audit] {site}" ::
    Ev.auditCall site ::
    match o.audit site idoms with
    | .error e => [Ev.errLine s!"Audit failed for {site}: {e}"]
    | .ok art =>
      Ev.outLine s!"[analyze] {site}" ::
      match analyze tsS render art DEFAULT_THRESHOLDS (!idoms.isEmpty) with
      | .error e =>
        let es := AErr.message e
        [Ev.errLine s!"Analyze failed for {site}: {es}"]
      | .ok p => [Ev.write (sd ++ "/report.md") p.1, Ev.write (sd ++ "/report.html") p.2]

/-- Python `cell.strip()`: drop surrounding whitespace. -/
def pyStripWs (s : String) : String :=
  ⟨((s.data.dropWhile Char.isWhitespace).reverse.dropWhile Char.isWhitespace).reverse⟩

/-- Site-list resolution: a single `--site-url`, or the `SiteUrl` column of
the CSV rows (`none` = column absent in that row); a row is appended,
stripped, only when its raw cell is truthy (non-empty). -/
def resolveSites (siteUrl : Option String) (csvRows : List (Option String)) : List String :=
  match siteUrl with
  | some u => [u]
  | none =>
    csvRows.filterMap fun r =>
      match r with
      | none => none
      | some cell => if cell == "" then none else some (pyStripWs cell)

/-- A CSV row holding a truthy (non-empty) `SiteUrl` cell. -/
def nonblankRow (r : Option String) : Bool :=
  match r with
  | none => false
  | some cell => cell != ""

/-- The body of `main` after argument parsing: the credential check, run
directory creation, site-list resolution with its fatal empty check, the
per-site loop, and the terminal message.  Returns the event trace and the
fatal `sys.exit` message, if any. -/
def runMain (o : Oracle) (tsS : String) (render : String → Option String)
    (idoms : List String) (pfxPass : Option String) (siteUrl : Option String)
    (csvRows : List (Option String)) (runDir : String) : List Ev × Option String :=
  match pfxPass with
  | none => ([], some "ERROR: PFX password env var not set")
  | some _ =>
    let pre := [Ev.mkdir runDir, Ev.mkdir (runDir ++ "/logs")]
    let sites := resolveSites siteUrl csvRows
    if sites.isEmpty then (pre, some "No sites provided.")
    else
      (pre ++ (sites.map (processSite o tsS render idoms runDir)).flatten ++
        [Ev.outLine s!"\nRun complete → {runDir}"], none)

/-- Does the trace write the file at `p`? -/
def hasWrite (tr : List Ev) (p : String) : Bool :=
  tr.any fun e =>
    match e with
    | .write q _ => q == p
    | _ => false

/-- Does the trace write any file at all? -/
def hasAnyWrite (tr : List Ev) : Bool :=
  tr.any fun e =>
    match e with
    | .write _ _ => true
    | _ => false

/-- Number of grant-stage invocations in the trace (= sites processed). -/
def grantCalls (tr : List Ev) : Nat :=
  tr.countP fun e =>
    match e with
    | .grantCall _ => true
    | _ => false

/-- Concrete collaborator outcomes for witnesses: both stages succeed on
every site, the audit artifact parsing to an empty JSON object. -/
def oracleAllOk : Oracle :=
  { grant := fun _ => .ok (), audit := fun _ _ => .ok (some (.jobj [])) }

/-- Concrete collaborator outcomes: the audit stage raises for `siteA`
only, both stages succeed on every other site. -/
def oracleAuditFailsA : Oracle :=
  { grant := fun _ => .ok ()
    audit := fun s _ => if s == "siteA" then .error "boom" else .ok (some (.jobj [])) }

/-- Concrete collaborator outcomes: the grant stage raises on every site. -/
def oracleGrantFails : Oracle :=
  { grant := fun _ => .error "denied", audit := fun _ _ => .ok none }

section Theorems

/-- On numerically-typed counts the dynamic rule block never raises and
agrees with `classify`. -/
theorem classifyD_typed (t : Thresholds) (c : NormalizedCounts) :
    classifyD t (toCountsD c) = .ok (classify t c) := by
  simp only [classifyD, toCountsD, pyGtInt, pyGeInt, pyTruthy, pyStr, classify,
    Except.bind, bind, pure, Except.pure, decide_eq_true_eq]

/-- Two string appends differ when the left parts start with different
characters. -/
theorem append_head_ne {c d : Char} (hcd : c ≠ d) {a b : String} (s t : String)
    (ha : a.data.head? = some c) (hb : b.data.head? = some d) : a ++ s ≠ b ++ t := by
  intro h
  have h1 : (a ++ s).data.head? = (b ++ t).data.head? := by rw [h]
  rw [String.data_append, String.data_append, List.head?_append, List.head?_append,
    ha, hb] at h1
  exact hcd (Option.some.inj h1)

/-- The rule-4 message is never the rule-3 message, whatever the counts. -/
theorem msgUnique_ne_msgDirect (v w : String) : msgUnique v ≠ msgDirect w :=
  append_head_ne (by decide : ('I' : Char) ≠ 'D') v w rfl rfl

/-- The rule-5 message is never the rule-6 message, whatever the counts. -/
theorem msgExternal_ne_msgGroups (v w : String) : msgExternal v ≠ msgGroups w :=
  append_head_ne (by decide : ('E' : Char) ≠ 'S') v w rfl rfl

/-- Membership in an if-guarded singleton. -/
theorem mem_ite_singleton {α : Type} {a b : α} {p : Prop} [Decidable p] :
    (a ∈ if p then [b] else []) ↔ p ∧ a = b := by
  split <;> simp_all

/-- Count in an if-guarded singleton of a different element. -/
theorem count_ite_ne {α : Type} [BEq α] [LawfulBEq α] {a b : α} (h : b ≠ a) {p : Prop}
    [Decidable p] : (if p then [b] else []).count a = 0 := by
  split <;> simp [List.count_cons, h]

/-- Count in an if-guarded singleton of the same element. -/
theorem count_ite_self {α : Type} [BEq α] [LawfulBEq α] {a : α} {p : Prop} [Decidable p] :
    (if p then [a] else []).count a = (if p then 1 else 0) := by
  split <;> simp [List.count_cons]

/-- C9: the Risk Classifier's result, in both its plain and hypertext
forms, is independent of whether a list of internal domains was supplied:
`analyze` never consults its `internal_domains_supplied` argument, so two
runs differing only in that input produce identical output. -/
theorem analyze_ignores_internal_domains (tsS : String) (render : String → Option String)
    (doc : Option JVal) (t : Thresholds) (b1 b2 : Bool) :
    analyze tsS render doc t b1 = analyze tsS render doc t b2 := rfl

/-- C8: on counts `{unique_items := 300, external_identities := 5,
direct_web_assignments := 0, groups_without_owner := 0,
anyone_or_everyone := false, external_owner := false}` and the default
thresholds, the classifier returns exactly one finding: severity High,
carrying the literal count 300. -/
theorem classify_single_high_example :
    classify DEFAULT_THRESHOLDS
      { unique_items := 300, external_identities := 5, direct_web_assignments := 0,
        groups_without_owner := 0, anyone_or_everyone := false, external_owner := false } =
      [("High", "Items with unique permissions: 300")] := by decide

/-- C1, counterexample: the analysis step is not total.  A `metrics` entry
that is not a JSON object (here `null`) raises `AttributeError` at
`data.get("metrics", {}).get(...)`, and a malformed or unreadable artifact
raises at `json.loads` — both errors propagate out of the analyze step
instead of yielding an all-defaults record. -/
theorem analyze_raises_on_malformed_metrics :
    analyze "T" (fun _ => none) (some (.jobj [("metrics", .jnull)]))
        DEFAULT_THRESHOLDS false = .error .attributeError ∧
    analyze "T" (fun _ => none) none DEFAULT_THRESHOLDS false =
        .error .jsonDecodeError := ⟨rfl, rfl⟩

/-- C1, amended: when the artifact is a well-formed JSON object whose
`metrics` key is absent, the Normalizer substitutes the empty mapping, the
normalized record is all defaults, and the analyze step succeeds; only a
malformed document (or a non-object `metrics` value) makes the analyze
step raise, and that error is caught per site by the orchestrator. -/
theorem normalizer_defaults_on_absent_metrics (kvs : List (String × JVal))
    (tsS : String) (render : String → Option String) (t : Thresholds) (ids : Bool)
    (h : List.lookup "metrics" kvs = none) :
    extractMetrics (some (.jobj kvs)) = .ok [] ∧
    normalizeMetrics [] = defaultCountsD ∧
    (analyze tsS render (some (.jobj kvs)) t ids).isOk = true := by
  have hx : extractMetrics (some (.jobj kvs)) = .ok [] := by
    simp [extractMetrics, h]
  refine ⟨hx, rfl, ?_⟩
  have hzero : normalizeMetrics [] = toCountsD
      { unique_items := 0, external_identities := 0, direct_web_assignments := 0,
        groups_without_owner := 0, anyone_or_everyone := false,
        external_owner := false } := rfl
  simp [analyze, hx, hzero, classifyD_typed, Except.isOk, Except.toBool]

/-- C1, witness for the amended theorem at the empty document. -/
theorem normalizer_defaults_on_absent_metrics_witness :
    extractMetrics (some (.jobj [])) = .ok [] ∧
    normalizeMetrics [] = defaultCountsD ∧
    (analyze "T" (fun _ => some "R") (some (.jobj [])) DEFAULT_THRESHOLDS false).isOk
      = true :=
  normalizer_defaults_on_absent_metrics [] "T" (fun _ => some "R")
    DEFAULT_THRESHOLDS false rfl

/-- C7: a raw metrics mapping missing every consumed field normalizes to
the all-zero/false record, the classifier on that record under the default
thresholds returns no findings, and the report's findings section then
carries the explicit no-risks line. -/
theorem default_metrics_pipeline (m : List (String × JVal)) (tsS : String)
    (h : ∀ k ∈ metricKeys, List.lookup k m = none) :
    normalizeMetrics m = defaultCountsD ∧
    classifyD DEFAULT_THRESHOLDS defaultCountsD = .ok [] ∧
    noRiskLine ∈ reportLines tsS defaultCountsD [] := by
  refine ⟨?_, rfl, ?_⟩
  · have h1 := h "itemsWithUniquePermissions" (by simp [metricKeys])
    have h2 := h "externalUsers" (by simp [metricKeys])
    have h3 := h "webDirectAssignments" (by simp [metricKeys])
    have h4 := h "orphanedGroups" (by simp [metricKeys])
    have h5 := h "anyoneOrEveryoneAtWeb" (by simp [metricKeys])
    have h6 := h "externalOwnerPresent" (by simp [metricKeys])
    simp [normalizeMetrics, h1, h2, h3, h4, h5, h6, normNum, normBool, defaultCountsD]
  · simp [reportLines]

/-- C7, witness at the empty mapping. -/
theorem default_metrics_pipeline_witness :
    normalizeMetrics [] = defaultCountsD ∧
    classifyD DEFAULT_THRESHOLDS defaultCountsD = .ok [] ∧
    noRiskLine ∈ reportLines "T" defaultCountsD [] :=
  default_metrics_pipeline [] "T" (fun k _ => by simp [List.lookup])

/-- C3: whenever `high.direct_web_perms` is enabled, the High
direct-web-permissions finding (carrying the literal count) is emitted
exactly when `direct_web_assignments > 0`.  The hypothesis `0 ≤ _` is the
`NormalizedCounts` data-model invariant (counts are non-negative
integers); the code itself tests Python truthiness, i.e. `≠ 0`. -/
theorem classifier_rule3_direct_web (t : Thresholds) (c : NormalizedCounts)
    (hnn : 0 ≤ c.direct_web_assignments) (hen : t.high.direct_web_perms = true) :
    (("High", msgDirect (toString c.direct_web_assignments)) ∈ classify t c) ↔
      0 < c.direct_web_assignments := by
  simp only [classify, List.mem_append, mem_ite_singleton]
  constructor
  · rintro ((((((⟨_, hp⟩ | ⟨_, hp⟩) | ⟨hc, _⟩) | ⟨_, hp⟩) | ⟨_, hp⟩) | ⟨_, hp⟩))
    · have hf : "High" = "Critical" := congrArg Prod.fst hp
      exact absurd hf (by decide)
    · have hf : "High" = "Critical" := congrArg Prod.fst hp
      exact absurd hf (by decide)
    · have := (Bool.and_eq_true _ _).mp hc
      have hne : c.direct_web_assignments ≠ 0 := by
        simpa [bne_iff_ne] using this.2
      omega
    · have hs : msgDirect (toString c.direct_web_assignments) =
          msgUnique (toString c.unique_items) := congrArg Prod.snd hp
      exact absurd hs (Ne.symm (msgUnique_ne_msgDirect _ _))
    · have hf : "High" = "Medium" := congrArg Prod.fst hp
      exact absurd hf (by decide)
    · have hf : "High" = "Medium" := congrArg Prod.fst hp
      exact absurd hf (by decide)
  · intro hpos
    refine Or.inl (Or.inl (Or.inl (Or.inr ⟨?_, by trivial⟩)))
    refine (Bool.and_eq_true _ _).mpr ⟨hen, ?_⟩
    simp only [bne_iff_ne, ne_eq, decide_not]
    omega

/-- C3, witness: default thresholds, two direct web assignments. -/
theorem classifier_rule3_direct_web_witness :
    (("High", msgDirect (toString (2 : Int))) ∈ classify DEFAULT_THRESHOLDS
      { unique_items := 0, external_identities := 0, direct_web_assignments := 2,
        groups_without_owner := 0, anyone_or_everyone := false,
        external_owner := false }) ↔ (0 : Int) < 2 :=
  classifier_rule3_direct_web DEFAULT_THRESHOLDS _ (by decide) rfl

/-- C6: the High unique-items rule is a strict inequality — the finding
(with its literal count) appears exactly once above the threshold and not
at the threshold — and the Medium external-identities rule is inclusive —
present when the count equals the configured minimum, absent one below. -/
theorem threshold_boundaries (t : Thresholds) (c : NormalizedCounts) :
    (c.unique_items > t.high.unique_items_gt →
      (classify t c).count ("High", msgUnique (toString c.unique_items)) = 1) ∧
    (c.unique_items = t.high.unique_items_gt →
      (classify t c).count ("High", msgUnique (toString c.unique_items)) = 0) ∧
    (c.external_identities = t.medium.external_item_identities_gte →
      ("Medium", msgExternal (toString c.external_identities)) ∈ classify t c) ∧
    (c.external_identities = t.medium.external_item_identities_gte - 1 →
      ("Medium", msgExternal (toString c.external_identities)) ∉ classify t c) := by
  have n1 : ("Critical", msgAnyone) ≠ ("High", msgUnique (toString c.unique_items)) := by
    intro h
    exact absurd (show "Critical" = "High" from congrArg Prod.fst h) (by decide)
  have n2 : ("Critical", msgExternalOwner) ≠
      ("High", msgUnique (toString c.unique_items)) := by
    intro h
    exact absurd (show "Critical" = "High" from congrArg Prod.fst h) (by decide)
  have n3 : ("High", msgDirect (toString c.direct_web_assignments)) ≠
      ("High", msgUnique (toString c.unique_items)) := by
    intro h
    have hs : msgDirect (toString c.direct_web_assignments) =
        msgUnique (toString c.unique_items) := congrArg Prod.snd h
    exact Ne.symm (msgUnique_ne_msgDirect _ _) hs
  have n5 : ("Medium", msgExternal (toString c.external_identities)) ≠
      ("High", msgUnique (toString c.unique_items)) := by
    intro h
    exact absurd (show "Medium" = "High" from congrArg Prod.fst h) (by decide)
  have n6 : ("Medium", msgGroups (toString c.groups_without_owner)) ≠
      ("High", msgUnique (toString c.unique_items)) := by
    intro h
    exact absurd (show "Medium" = "High" from congrArg Prod.fst h) (by decide)
  refine ⟨?_, ?_, ?_, ?_⟩
  · intro hgt
    simp only [classify, List.count_append, count_ite_ne n1, count_ite_ne n2,
      count_ite_ne n3, count_ite_ne n5, count_ite_ne n6, count_ite_self]
    rw [if_pos hgt]
  · intro heq
    simp only [classify, List.count_append, count_ite_ne n1, count_ite_ne n2,
      count_ite_ne n3, count_ite_ne n5, count_ite_ne n6, count_ite_self]
    rw [if_neg (by omega : ¬c.unique_items > t.high.unique_items_gt)]
  · intro heq
    simp only [classify, List.mem_append, mem_ite_singleton]
    exact Or.inl (Or.inr ⟨by omega, by trivial⟩)
  · intro hlt
    simp only [classify, List.mem_append, mem_ite_singleton, not_or]
    refine ⟨⟨⟨⟨⟨?_, ?_⟩, ?_⟩, ?_⟩, ?_⟩, ?_⟩
    · rintro ⟨_, hp⟩
      exact absurd (show "Medium" = "Critical" from congrArg Prod.fst hp) (by decide)
    · rintro ⟨_, hp⟩
      exact absurd (show "Medium" = "Critical" from congrArg Prod.fst hp) (by decide)
    · rintro ⟨_, hp⟩
      exact absurd (show "Medium" = "High" from congrArg Prod.fst hp) (by decide)
    · rintro ⟨_, hp⟩
      exact absurd (show "Medium" = "High" from congrArg Prod.fst hp) (by decide)
    · rintro ⟨hge, _⟩
      omega
    · rintro ⟨_, hp⟩
      have hs : msgExternal (toString c.external_identities) =
          msgGroups (toString c.groups_without_owner) := congrArg Prod.snd hp
      exact msgExternal_ne_msgGroups _ _ hs

/-- C6, witness: the four boundaries at the default thresholds
(`unique_items_gt = 250`, `external_item_identities_gte = 10`). -/
theorem threshold_boundaries_witness :
    (classify DEFAULT_THRESHOLDS
        { unique_items := 251, external_identities := 0, direct_web_assignments := 0,
          groups_without_owner := 0, anyone_or_everyone := false,
          external_owner := false }).count
      ("High", msgUnique (toString (251 : Int))) = 1 ∧
    (classify DEFAULT_THRESHOLDS
        { unique_items := 250, external_identities := 0, direct_web_assignments := 0,
          groups_without_owner := 0, anyone_or_everyone := false,
          external_owner := false }).count
      ("High", msgUnique (toString (250 : Int))) = 0 ∧
    ("Medium", msgExternal (toString (10 : Int))) ∈ classify DEFAULT_THRESHOLDS
        { unique_items := 0, external_identities := 10, direct_web_assignments := 0,
          groups_without_owner := 0, anyone_or_everyone := false,
          external_owner := false } ∧
    ("Medium", msgExternal (toString (9 : Int))) ∉ classify DEFAULT_THRESHOLDS
        { unique_items := 0, external_identities := 9, direct_web_assignments := 0,
          groups_without_owner := 0, anyone_or_everyone := false,
          external_owner := false } :=
  ⟨(threshold_boundaries DEFAULT_THRESHOLDS ⟨251, 0, 0, 0, false, false⟩).1 (by decide),
   (threshold_boundaries DEFAULT_THRESHOLDS ⟨250, 0, 0, 0, false, false⟩).2.1 (by decide),
   (threshold_boundaries DEFAULT_THRESHOLDS ⟨0, 10, 0, 0, false, false⟩).2.2.1 (by decide),
   (threshold_boundaries DEFAULT_THRESHOLDS ⟨0, 9, 0, 0, false, false⟩).2.2.2 (by decide)⟩

/-- C4, counterexample: the sanitizer's regex class carries a `+`, so the
two adjacent out-of-class characters of `a//b` collapse into a single
underscore, not one underscore per character as the claim requires. -/
theorem sanitize_collapses_runs_cex :
    sanitizeSite "a//b" = "a_b" ∧ claimCharwiseSanitize "a//b" = "a__b" ∧
    sanitizeSite "a//b" ≠ claimCharwiseSanitize "a//b" := by
  refine ⟨?_, ?_, ?_⟩ <;> decide

/-- Helper for the amended sanitization claim: when no two out-of-class
characters are adjacent, replacing maximal runs degenerates to the
per-character replacement. -/
theorem subBadAux_of_noAdjBad :
    ∀ l : List Char, noAdjBad l = true →
      subBadAux false l = l.map (fun c => if goodChar c then c else '_') ∧
      (∀ c cs, l = c :: cs → goodChar c = true →
        subBadAux true l = l.map (fun c => if goodChar c then c else '_')) := by
  intro l
  induction l with
  | nil => exact fun _ => ⟨rfl, fun c cs h => by cases h⟩
  | cons c cs ih =>
    intro h
    have hcs : noAdjBad cs = true := by
      cases cs with
      | nil => rfl
      | cons d ds =>
        have hh : (goodChar c = true ∨ goodChar d = true) ∧ noAdjBad (d :: ds) = true := by
          simpa [noAdjBad] using h
        exact hh.2
    have ihcs := ih hcs
    constructor
    · by_cases hg : goodChar c = true
      · simp [subBadAux, hg, ihcs.1]
      · have hg' : goodChar c = false := by simp_all
        cases cs with
        | nil => simp [subBadAux, hg']
        | cons d ds =>
          have hd : goodChar d = true := by
            have hh : (goodChar c = true ∨ goodChar d = true) ∧
                noAdjBad (d :: ds) = true := by
              simpa [noAdjBad] using h
            rcases hh.1 with h1 | h1
            · exact absurd h1 (by simp [hg'])
            · exact h1
          have htail := ihcs.2 d ds rfl hd
          have hstep : subBadAux false (c :: d :: ds) = '_' :: subBadAux true (d :: ds) := by
            simp [subBadAux, hg']
          rw [hstep, htail, List.map_cons]
          simp [hg']
    · intro a as heq hga
      cases heq
      simp [subBadAux, hga, ihcs.1]

/-- C4, amended: the per-site directory name is obtained by stripping
leading and trailing `/` from the site identifier and then replacing each
maximal run of consecutive out-of-class characters with a single
underscore; only when no two out-of-class characters are adjacent does
this coincide with the claimed one-underscore-per-character replacement. -/
theorem sanitize_charwise_when_no_adjacent (s : String)
    (h : noAdjBad (pyStripSlashes s).data = true) :
    sanitizeSite s = claimCharwiseSanitize (pyStripSlashes s) :=
  congrArg String.mk ((subBadAux_of_noAdjBad (pyStripSlashes s).data h).1)

/-- C4, witness for the amended theorem: a URL-like identifier with a
trailing slash and isolated out-of-class characters. -/
theorem sanitize_charwise_when_no_adjacent_witness :
    sanitizeSite "/contoso.example/sites/hr x/" =
      claimCharwiseSanitize (pyStripSlashes "/contoso.example/sites/hr x/") :=
  sanitize_charwise_when_no_adjacent _ (by decide)

/-- C10: the very first action taken for a site is creating its output
subdirectory — before the grant stage runs — so a site whose grant stage
fails still got its (empty) subdirectory, while no report file is written
for it. -/
theorem site_dir_created_before_grant (o : Oracle) (tsS : String)
    (render : String → Option String) (idoms : List String) (runDir site : String) :
    (processSite o tsS render idoms runDir site).head? =
      some (.mkdir (siteDir runDir site)) ∧
    (∀ e, o.grant site = .error e →
      hasAnyWrite (processSite o tsS render idoms runDir site) = false) := by
  refine ⟨rfl, ?_⟩
  intro e he
  simp [processSite, he, hasAnyWrite]

/-- C10, witness: a site whose grant stage raises. -/
theorem site_dir_created_before_grant_witness :
    (processSite oracleGrantFails "T" (fun _ => some "R") [] "out/run" "siteA").head? =
      some (.mkdir (siteDir "out/run" "siteA")) ∧
    hasAnyWrite (processSite oracleGrantFails "T" (fun _ => some "R") [] "out/run" "siteA")
      = false :=
  ⟨(site_dir_created_before_grant oracleGrantFails "T" (fun _ => some "R")
      [] "out/run" "siteA").1,
   (site_dir_created_before_grant oracleGrantFails "T" (fun _ => some "R")
      [] "out/run" "siteA").2 "denied" rfl⟩

/-- Helper: each loop iteration invokes the grant stage exactly once. -/
theorem grantCalls_processSite (o : Oracle) (tsS : String)
    (render : String → Option String) (idoms : List String) (runDir site : String) :
    grantCalls (processSite o tsS render idoms runDir site) = 1 := by
  rcases hg : o.grant site with e | u
  · simp [processSite, hg, grantCalls]
  · rcases ha : o.audit site idoms with e | art
    · simp [processSite, hg, ha, grantCalls]
    · rcases han : analyze tsS render art DEFAULT_THRESHOLDS (!idoms.isEmpty) with e | p
      · simp [processSite, hg, ha, han, grantCalls]
      · simp [processSite, hg, ha, han, grantCalls]

/-- Helper: the resolved site list is exactly the non-blank CSV rows. -/
theorem resolveSites_length (rows : List (Option String)) :
    (resolveSites none rows).length = rows.countP nonblankRow := by
  induction rows with
  | nil => rfl
  | cons r rest ih =>
    cases r with
    | none => simpa [resolveSites, List.countP_cons, nonblankRow] using ih
    | some cell =>
      by_cases hc : cell == ""
      · simp_all [resolveSites, List.countP_cons, nonblankRow]
      · simp_all [resolveSites, List.countP_cons, nonblankRow]

/-- C5: blank or missing CSV site entries are skipped — the orchestrator
processes exactly one site (one grant-stage invocation) per non-blank row
— and an empty resulting site list is a fatal pre-run error raised before
any site work. -/
theorem site_list_resolution (o : Oracle) (tsS : String)
    (render : String → Option String) (idoms : List String) (pw : String)
    (csvRows : List (Option String)) (runDir : String) :
    (resolveSites none csvRows).length = csvRows.countP nonblankRow ∧
    grantCalls (runMain o tsS render idoms (some pw) none csvRows runDir).1 =
      csvRows.countP nonblankRow ∧
    (csvRows.countP nonblankRow = 0 →
      (runMain o tsS render idoms (some pw) none csvRows runDir).2 =
        some "No sites provided." ∧
      grantCalls (runMain o tsS render idoms (some pw) none csvRows runDir).1 = 0) := by
  have hlen := resolveSites_length csvRows
  by_cases hemp : (resolveSites none csvRows).isEmpty
  · have h0 : csvRows.countP nonblankRow = 0 := by
      rw [← hlen]
      simpa [List.isEmpty_iff_length_eq_zero] using hemp
    refine ⟨hlen, ?_, fun _ => ⟨?_, ?_⟩⟩ <;>
      simp [runMain, hemp, grantCalls, h0]
  · have hgc : grantCalls (runMain o tsS render idoms (some pw) none csvRows runDir).1 =
        csvRows.countP nonblankRow := by
      rw [← hlen]
      simp only [runMain, hemp, if_neg, Bool.false_eq_true, not_false_iff]
      simp only [grantCalls, List.countP_append, List.countP_flatten]
      have hmap : ∀ sites : List String,
          (sites.map ((List.countP fun e =>
              match e with | .grantCall _ => true | _ => false) ∘
            processSite o tsS render idoms runDir)).sum = sites.length := by
        intro sites
        induction sites with
        | nil => rfl
        | cons s ss ihs =>
          have h1 := grantCalls_processSite o tsS render idoms runDir s
          simp only [grantCalls] at h1
          simp only [List.map_cons, List.sum_cons, Function.comp_apply, ihs, h1,
            List.length_cons]
          omega
      simp [hmap]
    refine ⟨hlen, hgc, fun hz => ?_⟩
    exact absurd (List.isEmpty_iff_length_eq_zero.mpr (hlen.trans hz)) hemp

/-- C5, witness: three non-blank rows and one blank row resolve to exactly
three sites with three grant invocations, and an all-blank file gives the
fatal pre-run error. -/
theorem site_list_resolution_witness :
    List.countP nonblankRow [some "a", some "b", some "c", some ""] = 3 ∧
    (resolveSites none [some "a", some "b", some "c", some ""]).length =
      List.countP nonblankRow [some "a", some "b", some "c", some ""] ∧
    grantCalls (runMain oracleAllOk "T" (fun _ => some "R") [] (some "p") none
        [some "a", some "b", some "c", some ""] "out/run").1 =
      List.countP nonblankRow [some "a", some "b", some "c", some ""] ∧
    (runMain oracleAllOk "T" (fun _ => some "R") [] (some "p") none
        [some "", none] "out/run").2 = some "No sites provided." :=
  ⟨by decide,
   (site_list_resolution oracleAllOk "T" (fun _ => some "R") [] "p"
      [some "a", some "b", some "c", some ""] "out/run").1,
   (site_list_resolution oracleAllOk "T" (fun _ => some "R") [] "p"
      [some "a", some "b", some "c", some ""] "out/run").2.1,
   ((site_list_resolution oracleAllOk "T" (fun _ => some "R") [] "p"
      [some "", none] "out/run").2.2 (by decide)).1⟩

/-- Appends around distinct middles (same prefix and suffix) differ. -/
theorem append_middle_ne (p s : String) {a b : String} (h : a ≠ b) :
    p ++ a ++ s ≠ p ++ b ++ s := by
  intro he
  apply h
  have hd := congrArg String.data he
  simp only [String.data_append] at hd
  exact String.ext (List.append_cancel_left (List.append_cancel_right hd))

/-- Appends whose right parts end in different characters differ. -/
theorem append_last_ne (p q : String) {a b : String} {c d : Char} (hcd : c ≠ d)
    (ha : a.data.reverse.head? = some c) (hb : b.data.reverse.head? = some d) :
    p ++ a ≠ q ++ b := by
  intro he
  have h1 : (p ++ a).data.reverse.head? = (q ++ b).data.reverse.head? := by rw [he]
  rw [String.data_append, String.data_append, List.reverse_append, List.reverse_append,
    List.head?_append, List.head?_append, ha, hb] at h1
  exact hcd (Option.some.inj h1)

/-- C2: per-site failure isolation.  With the audit stage failing for site
`A` and all stages succeeding for site `B`, the run is not fatal, no
report file is written under `A`'s directory while `B` receives both
complete report files, `A`'s failure is printed to the error stream with
the site identifier, and the terminal message still reports the run's
output location. -/
theorem orchestrator_failure_isolation
    (o : Oracle) (tsS : String) (render : String → Option String) (idoms : List String)
    (pw runDir A B eA : String) {artB : Option JVal} {md html : String}
    (hAt : pyStripWs A = A) (hAn : A ≠ "") (hBt : pyStripWs B = B) (hBn : B ≠ "")
    (hsd : sanitizeSite A ≠ sanitizeSite B)
    (hgA : o.grant A = .ok ()) (haA : o.audit A idoms = .error eA)
    (hgB : o.grant B = .ok ()) (haB : o.audit B idoms = .ok artB)
    (han : analyze tsS render artB DEFAULT_THRESHOLDS (!idoms.isEmpty) = .ok (md, html)) :
    (runMain o tsS render idoms (some pw) none [some A, some B] runDir).2 = none ∧
    hasWrite (runMain o tsS render idoms (some pw) none [some A, some B] runDir).1
      (siteDir runDir A ++ "/report.md") = false ∧
    hasWrite (runMain o tsS render idoms (some pw) none [some A, some B] runDir).1
      (siteDir runDir A ++ "/report.html") = false ∧
    hasWrite (runMain o tsS render idoms (some pw) none [some A, some B] runDir).1
      (siteDir runDir B ++ "/report.md") = true ∧
    hasWrite (runMain o tsS render idoms (some pw) none [some A, some B] runDir).1
      (siteDir runDir B ++ "/report.html") = true ∧
    Ev.write (siteDir runDir B ++ "/report.md") md ∈
      (runMain o tsS render idoms (some pw) none [some A, some B] runDir).1 ∧
    Ev.write (siteDir runDir B ++ "/report.html") html ∈
      (runMain o tsS render idoms (some pw) none [some A, some B] runDir).1 ∧
    Ev.errLine s!"Audit failed for {A}: {eA}" ∈
      (runMain o tsS render idoms (some pw) none [some A, some B] runDir).1 ∧
    (runMain o tsS render idoms (some pw) none [some A, some B] runDir).1.getLast? =
      some (.outLine s!"\nRun complete → {runDir}") := by
  have hres : resolveSites none [some A, some B] = [A, B] := by
    simp [resolveSites, List.filterMap_cons, hAn, hBn, hAt, hBt]
  have htrace :
      runMain o tsS render idoms (some pw) none [some A, some B] runDir =
      ([Ev.mkdir runDir, Ev.mkdir (runDir ++ "/logs")] ++
        (processSite o tsS render idoms runDir A ++
          (processSite o tsS render idoms runDir B ++ [])) ++
        [Ev.outLine s!"\nRun complete → {runDir}"], none) := by
    simp [runMain, hres]
  have hpA : processSite o tsS render idoms runDir A =
      [Ev.mkdir (siteDir runDir A), Ev.outLine s!"[grant] {A}", Ev.grantCall A,
       Ev.outLine s!"[audit] {A}", Ev.auditCall A,
       Ev.errLine s!"Audit failed for {A}: {eA}"] := by
    simp [processSite, hgA, haA]
  have hpB : processSite o tsS render idoms runDir B =
      [Ev.mkdir (siteDir runDir B), Ev.outLine s!"[grant] {B}", Ev.grantCall B,
       Ev.outLine s!"[audit] {B}", Ev.auditCall B, Ev.outLine s!"[analyze] {B}",
       Ev.write (siteDir runDir B ++ "/report.md") md,
       Ev.write (siteDir runDir B ++ "/report.html") html] := by
    simp [processSite, hgB, haB, han]
  have hBAmd : siteDir runDir B ++ "/report.md" ≠ siteDir runDir A ++ "/report.md" :=
    append_middle_ne (runDir ++ "/site-") "/report.md" (Ne.symm hsd)
  have hBAhtml : siteDir runDir B ++ "/report.html" ≠ siteDir runDir A ++ "/report.html" :=
    append_middle_ne (runDir ++ "/site-") "/report.html" (Ne.symm hsd)
  have hmdhtml : siteDir runDir B ++ "/report.md" ≠ siteDir runDir A ++ "/report.html" :=
    append_last_ne _ _ (by decide : ('d' : Char) ≠ 'l') rfl rfl
  have hhtmlmd : siteDir runDir B ++ "/report.html" ≠ siteDir runDir A ++ "/report.md" :=
    append_last_ne _ _ (by decide : ('l' : Char) ≠ 'd') rfl rfl
  rw [htrace]
  refine ⟨rfl, ?_, ?_, ?_, ?_, ?_, ?_, ?_, ?_⟩
  · simp [hasWrite, hpA, hpB, List.any_append, beq_eq_false_iff_ne, hBAmd, hhtmlmd]
  · simp [hasWrite, hpA, hpB, List.any_append, beq_eq_false_iff_ne, hBAhtml, hmdhtml]
  · simp [hasWrite, hpA, hpB, List.any_append]
  · simp [hasWrite, hpA, hpB, List.any_append]
  · simp [hpA, hpB, List.mem_append]
  · simp [hpA, hpB, List.mem_append]
  · simp [hpA, hpB, List.mem_append]
  · exact List.getLast?_concat _

/-- C2, witness: audit fails for `siteA`, everything succeeds for `siteB`. -/
theorem orchestrator_failure_isolation_witness :
    (runMain oracleAuditFailsA "T" (fun _ => some "R") [] (some "p") none
        [some "siteA", some "siteB"] "out/run").2 = none ∧
    hasWrite (runMain oracleAuditFailsA "T" (fun _ => some "R") [] (some "p") none
        [some "siteA", some "siteB"] "out/run").1
      (siteDir "out/run" "siteA" ++ "/report.md") = false ∧
    hasWrite (runMain oracleAuditFailsA "T" (fun _ => some "R") [] (some "p") none
        [some "siteA", some "siteB"] "out/run").1
      (siteDir "out/run" "siteB" ++ "/report.md") = true ∧
    hasWrite (runMain oracleAuditFailsA "T" (fun _ => some "R") [] (some "p") none
        [some "siteA", some "siteB"] "out/run").1
      (siteDir "out/run" "siteB" ++ "/report.html") = true ∧
    Ev.errLine "Audit failed for siteA: boom" ∈
      (runMain oracleAuditFailsA "T" (fun _ => some "R") [] (some "p") none
        [some "siteA", some "siteB"] "out/run").1 ∧
    (runMain oracleAuditFailsA "T" (fun _ => some "R") [] (some "p") none
        [some "siteA", some "siteB"] "out/run").1.getLast? =
      some (.outLine "\nRun complete → out/run") := by
  obtain ⟨h1, h2, h3, h4, h5, h6, h7, h8, h9⟩ :=
    orchestrator_failure_isolation oracleAuditFailsA "T" (fun _ => some "R") []
      "p" "out/run" "siteA" "siteB" "boom" (by decide) (by decide) (by decide)
      (by decide) (by decide) rfl rfl rfl rfl rfl
  exact ⟨h1, h2, h4, h5, h8, h9⟩

end Theorems

end AuditAgent
